import Mathlib

/-!
Shallow embedding of `src/main.py`, a Telegram bot that queries the
nationalize.io prediction service for a name, shows the top-5 predicted
nationalities as numbered text lines, caches the ranked result under the key
`"{chat_id}-{name}"`, and on a `graph_`-button callback renders the cached
result as a bar chart.

External collaborators are modelled as parameters:
* the `pycountry` registry as a partial map `Registry` from country codes to
  names (`pycountry.countries.get(alpha_2=code)` returning `None`, or any
  lookup failure, corresponds to the map returning `none`);
* the outcome of the HTTP request in `handle_name` as an `ApiOutcome` oracle
  (`requests.exceptions.RequestException` branch, generic `Exception` branch,
  or a parsed JSON body whose optional `country` field is the guess list);
* the outcome of the `try` block in `send_graph` (chart creation and photo
  send) as an `Option String` oracle: `some e` means an exception with text
  `e` was raised, `none` means success.

Python floats are modelled as exact rationals; effects (bot API calls) are
modelled as an explicit `BotAction` trace, and the module-level dict
`request_cache` as a function `String → Option (List Guess)` threaded through
the two handlers.
-/

/-- One entry of the `country` array of a nationalize.io response:
`{'country_id': ..., 'probability': ...}` (`src/main.py`, docstring of
`create_bar_chart`). -/
structure Guess where
  country_id : String
  probability : ℚ
deriving DecidableEq, Repr

/-- Model of the `pycountry` country registry: a partial map from alpha-2
codes to country names. -/
def Registry : Type := String → Option String

/-- `get_country_name` (src/main.py lines 24–43): returns
`pycountry.countries.get(alpha_2=code).name`, and on a failed lookup
(`AttributeError` from `.name` on `None`, or `LookupError`) the fallback
string `"Неизвестная страна (<code>)"`. -/
def get_country_name (reg : Registry) (country_code : String) : String :=
  match reg country_code with
  | some n => n
  | none => "Неизвестная страна (" ++ country_code ++ ")"

/-- Model of the Python expression `f"{q * 100:.1f}"` for a probability `q`:
`q * 100` rendered with exactly one decimal digit, i.e. the integer
`q * 1000` rounded to the nearest with ties to even (the rounding Python
`format` uses; binary-float artifacts are abstracted away by working over
exact rationals) and printed with a decimal point before its last digit.
Computed on the numerator and denominator so that every step is plain
integer arithmetic: `q * 1000 = q.num * 1000 / q.den`, `f` its floor
(`q.den` is positive, so `Int.ediv` is floor division) and `r` the
remainder. -/
def fmtPct (q : ℚ) : String :=
  let a := q.num * 1000
  let d : Int := q.den
  let f := a.ediv d
  let r := a - f * d
  let n : Int :=
    if 2 * r < d then f
    else if d < 2 * r then f + 1
    else if 2 ∣ f then f else f + 1
  let m : Nat := n.natAbs
  (if n < 0 then "-" else "") ++ toString (m / 10) ++ "." ++ toString (m % 10)

/-- Python `str.strip()` with no argument (line 113 of `src/main.py`):
removes leading and trailing whitespace characters. -/
def pyStrip (s : String) : String :=
  String.mk (((s.data.dropWhile Char.isWhitespace).reverse.dropWhile Char.isWhitespace).reverse)

/-- The comparison used by `sorted(countries, key=lambda x: x['probability'],
reverse=True)`: `a` may come no later than `b` iff `b`'s probability is at
most `a`'s. Python's `sorted` is a stable descending sort under this
relation. -/
def probGE (a b : Guess) : Prop := b.probability ≤ a.probability

instance : DecidableRel probGE := fun a b =>
  inferInstanceAs (Decidable (b.probability ≤ a.probability))

instance : IsTotal Guess probGE :=
  ⟨fun a b => (le_total b.probability a.probability).elim Or.inl Or.inr⟩

instance : IsTrans Guess probGE :=
  ⟨fun _ _ _ hab hbc => le_trans hbc hab⟩

/-- Lines 138–142 of `src/main.py`: `sorted(countries, key=lambda x:
x['probability'], reverse=True)[:5]`. `List.insertionSort probGE` is the
stable descending-by-probability sort. -/
def topCountries (countries : List Guess) : List Guess :=
  (List.insertionSort probGE countries).take 5

/-- One line of the text reply (lines 144–148 of `src/main.py`):
`f"{i}. {get_country_name(c['country_id'])} - {c['probability'] * 100:.1f}%"`. -/
def formatLine (reg : Registry) (i : Nat) (c : Guess) : String :=
  toString i ++ ". " ++ get_country_name reg c.country_id ++ " - " ++
    fmtPct c.probability ++ "%"

/-- The list comprehension over `enumerate(top_countries, 1)`, with `i` the
running index. -/
def resultLinesAux (reg : Registry) (i : Nat) : List Guess → List String
  | [] => []
  | c :: t => formatLine reg i c :: resultLinesAux reg (i + 1) t

/-- The `result` list of `handle_name`: numbered lines for the top countries,
numbering starting at 1. -/
def resultLines (reg : Registry) (top : List Guess) : List String :=
  resultLinesAux reg 1 top

/-- One bar of the chart: x-axis label (country name), height
(probability*100), and the text placed above the bar (`f'{height:.1f}%'`). -/
structure Bar where
  xlabel : String
  height : ℚ
  label : String
deriving DecidableEq, Repr

/-- The drawn figure of `create_bar_chart`: fixed title, y-label, tick
rotation and figure size, plus one bar per input country in input order. -/
structure Chart where
  title : String
  ylabel : String
  xtickRotation : Int
  figWidth : Nat
  figHeight : Nat
  bars : List Bar
deriving DecidableEq, Repr

/-- The `BytesIO` buffer returned by `create_bar_chart`: the encoded chart
plus the read-cursor position (`buf.seek(0)` puts it at 0). -/
structure ImageBuffer where
  png : Chart
  pos : Nat
deriving DecidableEq, Repr

/-- `create_bar_chart` (src/main.py lines 46–89): one bar per entry of
`countries_data` in order, x-label resolved through `get_country_name`,
height `probability * 100`, bar text `f'{height:.1f}%'` (the bar's height,
i.e. `probability * 100`, to one decimal — `fmtPct` applied to the
probability); fixed title, y-label, 45° tick rotation and 10×5 figure; the
buffer is rewound to position 0 before being returned. -/
def create_bar_chart (reg : Registry) (countries_data : List Guess) : ImageBuffer :=
  let country_names := countries_data.map (fun c => get_country_name reg c.country_id)
  let withPct := countries_data.map (fun c => (c.probability * 100, fmtPct c.probability))
  let bars := (country_names.zip withPct).map
    (fun p => { xlabel := p.1, height := p.2.1, label := p.2.2 ++ "%" : Bar })
  { png := { title := "Вероятность этничностей/национальностей"
             ylabel := "Вероятность (%)"
             xtickRotation := 45
             figWidth := 10
             figHeight := 5
             bars := bars }
    pos := 0 }

/-- The module-level dict `request_cache`, as a partial map from cache keys
to stored top-country lists. -/
def Cache : Type := String → Option (List Guess)

/-- The empty cache (initial state `request_cache = {}`). -/
def emptyCache : Cache := fun _ => none

/-- `request_cache[cache_key] = top_countries`: unconditional overwrite. -/
def cachePut (c : Cache) (k : String) (v : List Guess) : Cache :=
  fun k2 => if k2 = k then some v else c k2

/-- `del request_cache[cache_key]`. -/
def cacheDel (c : Cache) (k : String) : Cache :=
  fun k2 => if k2 = k then none else c k2

/-- The composite take operation of `send_graph` (src/main.py lines
186–197): `request_cache.get(cache_key)`, the falsiness test
`if not top_countries`, and on the truthy path `del request_cache[cache_key]`.
Returns the looked-up value (`none` when the handler treats it as
absent) together with the cache after the operation. -/
def cacheTake (c : Cache) (k : String) : Option (List Guess) × Cache :=
  match c k with
  | none => (none, c)
  | some v => if v = [] then (none, c) else (some v, cacheDel c k)

/-- The validation reply of `handle_name` (line 117). -/
def validationMsg : String := "❌ Имя(Фамилия) должно содержать минимум 2 символа"

/-- The empty-result reply of `handle_name` (line 134). -/
def noResultMsg : String :=
  "😞 Не удалось определить этничность/национальность. Возможно, имя/фамилия просто очень редкая!"

/-- The `requests.exceptions.RequestException` reply of `handle_name`
(line 171). -/
def netErrMsg (e : String) : String :=
  "⚠️ El problema - Ошибка при запросе к API: " ++ e

/-- The generic `Exception` reply of `handle_name` (line 174). -/
def unexpErrMsg (e : String) : String :=
  "⚠️ El problema - Произошла непредвиденная ошибка: " ++ e

/-- The stale-cache callback answer of `send_graph` (line 191). -/
def staleMsg : String := "Данные устарели или отсутствуют"

/-- The render-failure callback answer of `send_graph` (line 210). -/
def renderErrMsg (e : String) : String := "Ошибка создания графика: " ++ e

/-- Outbound effects of the handlers, recorded as a trace: the HTTP GET to
the prediction service, `bot.reply_to`, `bot.send_message` (with the
`callback_data` of the optional inline button), `bot.answer_callback_query`,
and `bot.send_photo`. -/
inductive BotAction where
  | apiRequest (name : String)
  | reply (text : String)
  | sendMessage (chatId : Int) (text : String) (button : Option String)
  | answerCallback (text : String)
  | sendPhoto (chatId : Int) (photo : ImageBuffer) (caption : String)
deriving DecidableEq, Repr

/-- Oracle for the outcome of the `requests.get` / `raise_for_status` /
`response.json()` sequence in `handle_name`: a `RequestException` with text
`msg`, any other exception with text `msg`, or a parsed body whose optional
`country` field holds the guesses (`data.get('country', [])` turns an absent
field into `[]`). -/
inductive ApiOutcome where
  | requestError (msg : String)
  | otherError (msg : String)
  | ok (countryField : Option (List Guess))
deriving DecidableEq, Repr

/-- Python's `str.split(sep)` for a single-character separator, on character
lists: splits at every occurrence of `sep`. -/
def splitChars (sep : Char) : List Char → List (List Char)
  | [] => [[]]
  | c :: rest =>
    match splitChars sep rest with
    | [] => [[]]
    | h :: t => if c = sep then [] :: h :: t else (c :: h) :: t

/-- `call.data[6:]` (line 183): the callback payload minus the 6-character
tag `"graph_"`, character-based slicing as in Python. -/
def extractKey (callbackData : String) : String :=
  String.mk (callbackData.data.drop 6)

/-- The photo caption of `send_graph` (line 205):
`f"📊 Распределение для {cache_key.split('-')[1]}"`. Python's `[1]` raises
`IndexError` when the key has no separator — that raise happens inside the
handler's `try` block and is covered by the render oracle; here the index is
total via `getD` (every key built by `handle_name` contains `'-'`, so the
element exists on all paths the claims exercise). -/
def captionFor (cache_key : String) : String :=
  "📊 Распределение для " ++ String.mk ((splitChars '-' cache_key.data).getD 1 [])

/-- The cache invariant maintained by the two handlers: every stored value
is a non-empty list of at most 5 guesses sorted non-increasingly by
probability. -/
def CacheWF (c : Cache) : Prop :=
  ∀ k v, c k = some v → v ≠ [] ∧ v.length ≤ 5 ∧ List.Sorted probGE v

/-- A small concrete registry used to instantiate theorems on concrete
inputs. -/
def exReg : Registry := fun c =>
  if c = "US" then some "United States"
  else if c = "RU" then some "Russian Federation"
  else if c = "DE" then some "Germany"
  else if c = "FR" then some "France"
  else if c = "IT" then some "Italy"
  else if c = "ES" then some "Spain"
  else none

/-- A concrete 6-guess service response used to instantiate theorems. -/
def exCountries : List Guess :=
  [⟨"US", Rat.divInt 5 100⟩, ⟨"RU", Rat.divInt 9 10⟩, ⟨"DE", Rat.divInt 3 10⟩,
   ⟨"FR", Rat.divInt 25 1000⟩, ⟨"IT", Rat.divInt 15 100⟩, ⟨"ES", Rat.divInt 1 100⟩]

/-- `handle_name` (src/main.py lines 108–174): trims the message text,
validates its length, consults the prediction service (oracle `api`),
replies on error or empty `country` list, and otherwise sorts, truncates to
5, formats, stores the top list in the cache under
`f"{message.chat.id}-{name}"` and sends the summary with one inline button
whose `callback_data` is `f"graph_{cache_key}"`. Returns the action trace
and the cache after the handler. -/
def handle_name (reg : Registry) (cache : Cache) (chatId : Int) (text : String)
    (api : ApiOutcome) : List BotAction × Cache :=
  let name := pyStrip text
  if name.length < 2 then
    ([BotAction.reply validationMsg], cache)
  else
    match api with
    | ApiOutcome.requestError e => ([BotAction.apiRequest name, BotAction.reply (netErrMsg e)], cache)
    | ApiOutcome.otherError e => ([BotAction.apiRequest name, BotAction.reply (unexpErrMsg e)], cache)
    | ApiOutcome.ok countryField =>
      let countries := countryField.getD []
      if countries = [] then
        ([BotAction.apiRequest name, BotAction.reply noResultMsg], cache)
      else
        let top := topCountries countries
        let result := resultLines reg top
        let cache_key := toString chatId ++ "-" ++ name
        ([BotAction.apiRequest name,
          BotAction.sendMessage chatId
            ("🎯 Топ-5 этничностей/национальностей для " ++ name ++ ":\n" ++
              String.intercalate "\n" result)
            (some ("graph_" ++ cache_key))],
         cachePut cache cache_key top)

/-- `send_graph` (src/main.py lines 177–212): extracts the cache key from the
payload, fetches it from the cache, answers with the stale notice if the
value is absent or falsy, otherwise deletes the entry and tries to build and
send the chart; an exception in that `try` block (oracle `renderRaises`) is
answered as a render-error callback notice. Returns the action trace and the
cache after the handler. -/
def send_graph (reg : Registry) (cache : Cache) (chatId : Int)
    (callbackData : String) (renderRaises : Option String) : List BotAction × Cache :=
  let cache_key := extractKey callbackData
  match cache cache_key with
  | none => ([BotAction.answerCallback staleMsg], cache)
  | some top =>
    if top = [] then
      ([BotAction.answerCallback staleMsg], cache)
    else
      let c2 := cacheDel cache cache_key
      match renderRaises with
      | some e => ([BotAction.answerCallback (renderErrMsg e)], c2)
      | none =>
        ([BotAction.sendPhoto chatId (create_bar_chart reg top) (captionFor cache_key)], c2)

/-! ### Helper lemmas -/

theorem extractKey_graph (k : String) : extractKey ("graph_" ++ k) = k := by
  show String.mk (("graph_" ++ k).data.drop 6) = k
  rw [String.data_append]
  exact congrArg String.mk (List.drop_left "graph_".data k.data)

theorem splitChars_of_not_mem (sep : Char) : ∀ (l : List Char), sep ∉ l → splitChars sep l = [l]
  | [], _ => rfl
  | c :: rest, h => by
    have hc : ¬ (c = sep) := fun e => h (e ▸ List.mem_cons_self c rest)
    have hr : sep ∉ rest := fun e => h (List.mem_cons_of_mem _ e)
    simp [splitChars, splitChars_of_not_mem sep rest hr, hc]

theorem splitChars_sep_append (sep : Char) :
    ∀ (a b : List Char), sep ∉ a → sep ∉ b → splitChars sep (a ++ sep :: b) = [a, b]
  | [], b, _, hb => by
    simp [splitChars, splitChars_of_not_mem sep b hb]
  | c :: a2, b, ha, hb => by
    have hc : ¬ (c = sep) := fun e => ha (e ▸ List.mem_cons_self c a2)
    have ha2 : sep ∉ a2 := fun e => ha (List.mem_cons_of_mem _ e)
    simp [splitChars, splitChars_sep_append sep a2 b ha2 hb, hc]

theorem resultLinesAux_length (reg : Registry) :
    ∀ (i : Nat) (l : List Guess), (resultLinesAux reg i l).length = l.length
  | _, [] => rfl
  | i, _ :: t => by simp [resultLinesAux, resultLinesAux_length reg (i + 1) t]

theorem resultLines_length (reg : Registry) (top : List Guess) :
    (resultLines reg top).length = top.length :=
  resultLinesAux_length reg 1 top

theorem resultLinesAux_get (reg : Registry) :
    ∀ (i : Nat) (l : List Guess) (j : Fin l.length),
      (resultLinesAux reg i l).get
          ⟨j.val, by rw [resultLinesAux_length]; exact j.isLt⟩ =
        formatLine reg (i + j.val) (l.get j)
  | i, c :: t, ⟨0, _⟩ => rfl
  | i, c :: t, ⟨j + 1, hj⟩ => by
    have ih := resultLinesAux_get reg (i + 1) t ⟨j, Nat.lt_of_succ_lt_succ hj⟩
    simpa [resultLinesAux, List.get, Nat.add_assoc, Nat.add_comm 1 j] using ih

theorem resultLines_get (reg : Registry) (top : List Guess) (j : Fin top.length) :
    (resultLines reg top).get ⟨j.val, by rw [resultLines_length]; exact j.isLt⟩ =
      formatLine reg (j.val + 1) (top.get j) := by
  have := resultLinesAux_get reg 1 top j
  simpa [resultLines, Nat.add_comm 1 j.val] using this

theorem length_topCountries (l : List Guess) :
    (topCountries l).length = min l.length 5 := by
  simp [topCountries, List.length_take, List.length_insertionSort]
  omega

theorem topCountries_ne_nil {l : List Guess} (h : l ≠ []) : topCountries l ≠ [] := by
  intro he
  have h1 := length_topCountries l
  rw [he] at h1
  have h2 : 0 < l.length := List.length_pos.mpr h
  simp at h1
  omega

theorem topCountries_length_le (l : List Guess) : (topCountries l).length ≤ 5 := by
  rw [length_topCountries]
  omega

theorem topCountries_sorted (l : List Guess) : List.Sorted probGE (topCountries l) :=
  (List.sorted_insertionSort probGE l).sublist (List.take_sublist 5 _)

theorem renderErrMsg_ne_staleMsg (e : String) : renderErrMsg e ≠ staleMsg := by
  intro h
  have h2 : (renderErrMsg e).data.head? = staleMsg.data.head? :=
    congrArg (fun s => s.data.head?) h
  have h3 : (renderErrMsg e).data.head? = some 'О' := by
    show ("Ошибка создания графика: " ++ e).data.head? = some 'О'
    rw [String.data_append]
    rfl
  have h4 : staleMsg.data.head? = some 'Д' := rfl
  rw [h3, h4] at h2
  exact absurd h2 (by decide)

theorem filter_orderedInsert (p : ℚ) (a : Guess) :
    ∀ (l : List Guess),
      (List.orderedInsert probGE a l).filter (fun g => decide (g.probability = p)) =
        if a.probability = p then
          a :: l.filter (fun g => decide (g.probability = p))
        else l.filter (fun g => decide (g.probability = p))
  | [] => by
    by_cases hp : a.probability = p <;> simp [List.orderedInsert, hp]
  | b :: t => by
    by_cases hr : probGE a b
    · by_cases hp : a.probability = p <;>
        simp [List.orderedInsert, hr, hp, List.filter_cons]
    · have ih := filter_orderedInsert p a t
      by_cases hp : a.probability = p
      · have hbp : ¬ (b.probability = p) := by
          intro e
          exact hr (by unfold probGE; rw [e, hp])
      
        simp [List.orderedInsert, hr, List.filter_cons, hbp, ih, hp]
      · simp [List.orderedInsert, hr, List.filter_cons, ih, hp]

theorem filter_insertionSort (p : ℚ) :
    ∀ (l : List Guess),
      (List.insertionSort probGE l).filter (fun g => decide (g.probability = p)) =
        l.filter (fun g => decide (g.probability = p))
  | [] => rfl
  | a :: l => by
    have h1 := filter_orderedInsert p a (List.insertionSort probGE l)
    have h2 := filter_insertionSort p l
    by_cases hp : a.probability = p <;>
      simp [List.insertionSort, h1, h2, hp, List.filter_cons]

theorem cacheWF_cacheDel {c : Cache} (h : CacheWF c) (k : String) :
    CacheWF (cacheDel c k) := by
  intro k2 v hv
  unfold cacheDel at hv
  split at hv
  · exact absurd hv (by simp)
  · exact h k2 v hv

theorem create_bar_chart_bars (reg : Registry) (l : List Guess) :
    (create_bar_chart reg l).png.bars =
      l.map (fun c =>
        { xlabel := get_country_name reg c.country_id
          height := c.probability * 100
          label := fmtPct c.probability ++ "%" : Bar }) := by
  induction l with
  | nil => rfl
  | cons c t ih =>
    simp only [create_bar_chart, List.map_cons, List.zip_cons_cons] at ih ⊢
    simp [ih]

/-! ### Claim theorems -/

/-- C4: for every incoming text message whose whitespace-trimmed content has
length strictly less than 2, `handle_name` replies with the validation error
message and stops: the trace holds no outbound prediction request and the
result cache is returned unchanged. -/
theorem claim_C4 (reg : Registry) (cache : Cache) (chatId : Int) (text : String)
    (api : ApiOutcome) (h : (pyStrip text).length < 2) :
    handle_name reg cache chatId text api = ([BotAction.reply validationMsg], cache) ∧
    ∀ a ∈ (handle_name reg cache chatId text api).fst, ∀ n, a ≠ BotAction.apiRequest n := by
  have h1 : handle_name reg cache chatId text api = ([BotAction.reply validationMsg], cache) := by
    simp [handle_name, h]
  refine ⟨h1, ?_⟩
  rw [h1]
  simp

/-- C4 witness: the one-character message "a" (any api outcome, any cache). -/
theorem claim_C4_witness :
    handle_name exReg emptyCache 0 "a" (ApiOutcome.ok none) =
      ([BotAction.reply validationMsg], emptyCache) :=
  (claim_C4 exReg emptyCache 0 "a" (ApiOutcome.ok none) (by decide)).1

/-- C5: the country resolver is total by construction (it is a Lean
function); for every code mapped by the registry it returns that registered
name (non-empty when the registry is well-formed), and for every unmapped
code it returns a fallback string containing the original code. -/
theorem claim_C5 (reg : Registry) (hreg : ∀ c n, reg c = some n → n ≠ "")
    (code : String) :
    (∀ n, reg code = some n →
        get_country_name reg code = n ∧ get_country_name reg code ≠ "") ∧
    (reg code = none → ∃ p s, get_country_name reg code = p ++ code ++ s) := by
  constructor
  · intro n h
    constructor
    · simp [get_country_name, h]
    · simp [get_country_name, h]
      exact hreg code n h
  · intro h
    exact ⟨"Неизвестная страна (", ")", by simp [get_country_name, h]⟩

/-- C5 witness: the concrete registry, a mapped code and an unmapped code. -/
theorem claim_C5_witness :
    (get_country_name exReg "RU" = "Russian Federation" ∧
      get_country_name exReg "RU" ≠ "") ∧
    (∃ p s, get_country_name exReg "XX" = p ++ "XX" ++ s) := by
  have hreg : ∀ c n, exReg c = some n → n ≠ "" := by
    intro c n h
    unfold exReg at h
    split_ifs at h
    all_goals first
      | exact Option.noConfusion h
      | (injection h with h2; subst h2; decide)
  exact ⟨(claim_C5 exReg hreg "RU").1 "Russian Federation" (by decide),
         (claim_C5 exReg hreg "XX").2 (by decide)⟩

/-- C6: for every message that passes validation but whose response has an
absent (`data.get('country', [])` default) or empty `country` list,
`handle_name` replies with the fixed no-prediction message — a plain reply,
which carries no inline button — and returns the cache unchanged. -/
theorem claim_C6 (reg : Registry) (cache : Cache) (chatId : Int) (text : String)
    (h : 2 ≤ (pyStrip text).length) :
    handle_name reg cache chatId text (ApiOutcome.ok none) =
      ([BotAction.apiRequest (pyStrip text), BotAction.reply noResultMsg], cache) ∧
    handle_name reg cache chatId text (ApiOutcome.ok (some [])) =
      ([BotAction.apiRequest (pyStrip text), BotAction.reply noResultMsg], cache) := by
  have hlt : ¬ ((pyStrip text).length < 2) := Nat.not_lt.mpr h
  constructor <;> simp [handle_name, hlt]

/-- C6 witness: the query "xx" (length 2, passes validation). -/
theorem claim_C6_witness :
    handle_name exReg emptyCache 0 "xx" (ApiOutcome.ok none) =
      ([BotAction.apiRequest (pyStrip "xx"), BotAction.reply noResultMsg], emptyCache) :=
  (claim_C6 exReg emptyCache 0 "xx" (by decide)).1

/-- C1 counterexample: the claim quantifies over every ranked result `v`,
and the spec's `RankedResult` includes the empty sequence (size 0–5); for
`v = []` the handler's falsiness test treats the stored entry as absent, so
`put(k, [])` followed by `take(k)` returns absent rather than `[]`, and the
entry is not removed. -/
theorem claim_C1_counterexample :
    (cacheTake (cachePut emptyCache "1-ab" []) "1-ab").fst = none ∧
    (cacheTake (cachePut emptyCache "1-ab" []) "1-ab").snd "1-ab" = some [] := by
  constructor <;> decide

/-- C1 (amended to non-empty ranked results): for every key `k` and every
non-empty ranked result `v`, `put(k, v)` then `take(k)` returns `v` and
removes the entry, and an immediately following second `take(k)` reports
absent; and on a button-press callback whose extracted key is absent from
the cache, `send_graph` answers the callback with the stale/missing notice
only — no new message is sent and the cache is unchanged. -/
theorem claim_C1 :
    (∀ (c : Cache) (k : String) (v : List Guess), v ≠ [] →
        (cacheTake (cachePut c k v) k).fst = some v ∧
        (cacheTake (cachePut c k v) k).snd k = none ∧
        (cacheTake ((cacheTake (cachePut c k v) k).snd) k).fst = none) ∧
    (∀ (reg : Registry) (c : Cache) (chatId : Int) (d : String) (r : Option String),
        c (extractKey d) = none →
        send_graph reg c chatId d r = ([BotAction.answerCallback staleMsg], c)) := by
  constructor
  · intro c k v hv
    refine ⟨?_, ?_, ?_⟩ <;> simp [cacheTake, cachePut, cacheDel, hv]
  · intro reg c chatId d r h
    simp [send_graph, h]

/-- C1 witness: a concrete put/take round trip and a concrete absent-key
callback. -/
theorem claim_C1_witness :
    (cacheTake (cachePut emptyCache "7-ab" [⟨"RU", 1⟩]) "7-ab").fst = some [⟨"RU", 1⟩] ∧
    send_graph exReg emptyCache 0 "graph_zz" none =
      ([BotAction.answerCallback staleMsg], emptyCache) :=
  ⟨(claim_C1.1 emptyCache "7-ab" [⟨"RU", 1⟩] (by decide)).1,
   claim_C1.2 exReg emptyCache 0 "graph_zz" none rfl⟩

/-- C10: when the callback key is present with a non-empty value, the entry
is deleted before rendering is attempted; if rendering raises, the handler
answers with the render-error notice and the deletion stands (no rollback),
so pressing the same button again yields the stale/missing notice under any
render outcome. -/
theorem claim_C10 (reg : Registry) (c : Cache) (chatId : Int) (k : String)
    (v : List Guess) (e : String) (h : c k = some v) (hv : v ≠ []) :
    (send_graph reg c chatId ("graph_" ++ k) (some e)).fst =
      [BotAction.answerCallback (renderErrMsg e)] ∧
    (send_graph reg c chatId ("graph_" ++ k) (some e)).snd k = none ∧
    ∀ (r2 : Option String),
      send_graph reg ((send_graph reg c chatId ("graph_" ++ k) (some e)).snd) chatId
          ("graph_" ++ k) r2 =
        ([BotAction.answerCallback staleMsg],
          (send_graph reg c chatId ("graph_" ++ k) (some e)).snd) := by
  have h1 : (send_graph reg c chatId ("graph_" ++ k) (some e)) =
      ([BotAction.answerCallback (renderErrMsg e)], cacheDel c k) := by
    simp [send_graph, extractKey_graph, h, hv]
  refine ⟨by rw [h1], by rw [h1]; simp [cacheDel], ?_⟩
  intro r2
  rw [h1]
  simp [send_graph, extractKey_graph, cacheDel]

/-- C10 witness: a concrete cached entry whose rendering fails, followed by
a second press. -/
theorem claim_C10_witness :
    (send_graph exReg (cachePut emptyCache "7-ab" [⟨"RU", 1⟩]) 7 ("graph_" ++ "7-ab")
        (some "boom")).fst = [BotAction.answerCallback (renderErrMsg "boom")] :=
  (claim_C10 exReg (cachePut emptyCache "7-ab" [⟨"RU", 1⟩]) 7 "7-ab" [⟨"RU", 1⟩] "boom"
    (by decide) (by decide)).1

/-- C2: the handler sorts guesses by probability descending with a stable
sort and truncates to at most 5. Sortedness is `Sorted probGE`
(non-increasing probabilities); stability is expressed by the standard
characterization for a key-based sort: for every probability value `p`, the
subsequence of guesses whose probability equals `p` is unchanged by the
sort. The final conjunct is the claim's concrete instance
[0.2, 0.9, 0.5, 0.9, 0.1]: both 0.9 entries (in original order) come before
0.5 before 0.2 before 0.1. Proved for all guess lists, which subsumes the
non-empty ones. -/
theorem claim_C2 :
    (∀ l : List Guess,
        List.Sorted probGE (List.insertionSort probGE l) ∧
        List.Sorted probGE (topCountries l) ∧
        topCountries l = (List.insertionSort probGE l).take 5 ∧
        (topCountries l).length ≤ 5 ∧
        (∀ p : ℚ,
          (List.insertionSort probGE l).filter (fun g => decide (g.probability = p)) =
            l.filter (fun g => decide (g.probability = p)))) ∧
    topCountries
        [⟨"A", Rat.divInt 2 10⟩, ⟨"B", Rat.divInt 9 10⟩, ⟨"C", Rat.divInt 5 10⟩,
         ⟨"D", Rat.divInt 9 10⟩, ⟨"E", Rat.divInt 1 10⟩] =
      [⟨"B", Rat.divInt 9 10⟩, ⟨"D", Rat.divInt 9 10⟩, ⟨"C", Rat.divInt 5 10⟩,
       ⟨"A", Rat.divInt 2 10⟩, ⟨"E", Rat.divInt 1 10⟩] :=
  ⟨fun l => ⟨List.sorted_insertionSort probGE l, topCountries_sorted l, rfl,
    topCountries_length_le l, fun p => filter_insertionSort p l⟩, by decide⟩

/-- C3: for every successful non-empty response, the result-line list has
exactly `min n 5` entries (at least one), numbered consecutively from 1,
each of the form `"<rank>. <country display name> - <probability*100 to 1
decimal>%"` with the display name resolved through `get_country_name`; the
final conjunct is the 6-country scenario, which yields exactly 5 numbered
lines. -/
theorem claim_C3 :
    (∀ (reg : Registry) (countries : List Guess), countries ≠ [] →
        (resultLines reg (topCountries countries)).length = min countries.length 5 ∧
        1 ≤ (resultLines reg (topCountries countries)).length ∧
        (∀ j : Fin (topCountries countries).length,
          (resultLines reg (topCountries countries)).get
              ⟨j.val, by rw [resultLines_length]; exact j.isLt⟩ =
            toString (j.val + 1) ++ ". " ++
              get_country_name reg ((topCountries countries).get j).country_id ++ " - " ++
              fmtPct ((topCountries countries).get j).probability ++ "%")) ∧
    resultLines exReg (topCountries exCountries) =
      ["1. Russian Federation - 90.0%", "2. Germany - 30.0%", "3. Italy - 15.0%",
       "4. United States - 5.0%", "5. France - 2.5%"] := by
  refine ⟨fun reg countries hne => ⟨?_, ?_, fun j => ?_⟩, by decide⟩
  · rw [resultLines_length, length_topCountries]
  · rw [resultLines_length, length_topCountries]
    have := List.length_pos.mpr hne
    omega
  · rw [resultLines_get]
    rfl

/-- C3 witness: the 6-country scenario instantiating the quantified part. -/
theorem claim_C3_witness :
    (resultLines exReg (topCountries exCountries)).length = min exCountries.length 5 :=
  ((claim_C3.1 exReg exCountries (by decide)).1)

/-- C7 counterexample: the claim quantifies over every chat id, but Telegram
chat ids are integers and group-chat ids are negative; for chat id `-1` and
the separator-free name `"ab"`, the key is `"-1-ab"`, `split('-')[1]`
returns `"1"`, and the caption names `"1"`, not `"ab"`. -/
theorem claim_C7_counterexample :
    captionFor (extractKey ("graph_" ++ (toString (-1 : Int) ++ "-" ++ "ab"))) =
      "📊 Распределение для 1" ∧
    ("📊 Распределение для 1" : String) ≠ "📊 Распределение для " ++ "ab" := by
  constructor <;> decide

/-- C7 (amended): for every chat id whose decimal representation contains no
separator character — in particular every non-negative chat id — and every
trimmed name not containing the separator, the caption derived from the
round-tripped key `"graph_" + chatId + "-" + name` contains exactly that
name, and a successful chart send from a cache holding that key emits one
photo whose caption names exactly the submitted name. -/
theorem claim_C7 (chatId : Int) (name : String)
    (hc : ('-' : Char) ∉ (toString chatId).data)
    (hn : ('-' : Char) ∉ name.data) :
    captionFor (extractKey ("graph_" ++ (toString chatId ++ "-" ++ name))) =
      "📊 Распределение для " ++ name ∧
    ∀ (reg : Registry) (cache : Cache) (v : List Guess),
      cache (toString chatId ++ "-" ++ name) = some v → v ≠ [] →
      (send_graph reg cache chatId ("graph_" ++ (toString chatId ++ "-" ++ name))
          none).fst =
        [BotAction.sendPhoto chatId (create_bar_chart reg v)
          ("📊 Распределение для " ++ name)] := by
  have hkey : (toString chatId ++ "-" ++ name).data =
      (toString chatId).data ++ '-' :: name.data := by
    rw [String.data_append, String.data_append]
    simp [List.append_assoc]
  have hcap : captionFor (toString chatId ++ "-" ++ name) =
      "📊 Распределение для " ++ name := by
    unfold captionFor
    rw [hkey, splitChars_sep_append '-' _ _ hc hn]
    rfl
  constructor
  · rw [extractKey_graph]
    exact hcap
  · intro reg cache v h hv
    simp [send_graph, extractKey_graph, h, hv, hcap]

/-- C7 witness: chat id 7 and name "ab". -/
theorem claim_C7_witness :
    captionFor (extractKey ("graph_" ++ (toString (7 : Int) ++ "-" ++ "ab"))) =
      "📊 Распределение для " ++ "ab" :=
  (claim_C7 7 "ab" (by decide) (by decide)).1

/-- C8: for every ranked result of size 0–5, the chart has exactly one bar
per input guess in input order, each bar's height is `probability * 100` and
its text label is that percentage to one decimal place, x-labels are
resolved through `get_country_name`, and the returned buffer's read cursor
is at position 0. (The renderer is a total Lean function, so it cannot
raise.) -/
theorem claim_C8 (reg : Registry) (l : List Guess) (_h : l.length ≤ 5) :
    (create_bar_chart reg l).png.bars.length = l.length ∧
    (∀ j : Fin l.length,
      (create_bar_chart reg l).png.bars.get
          ⟨j.val, by rw [create_bar_chart_bars, List.length_map]; exact j.isLt⟩ =
        { xlabel := get_country_name reg (l.get j).country_id
          height := (l.get j).probability * 100
          label := fmtPct (l.get j).probability ++ "%" }) ∧
    (create_bar_chart reg l).pos = 0 := by
  refine ⟨by rw [create_bar_chart_bars, List.length_map], fun j => ?_, rfl⟩
  have hb := create_bar_chart_bars reg l
  rw [List.get_of_eq hb, List.get_map]

/-- C8 witness: a one-guess ranked result. -/
theorem claim_C8_witness :
    (create_bar_chart exReg [⟨"RU", 1⟩]).png.bars.length = 1 ∧
    (create_bar_chart exReg [⟨"RU", 1⟩]).pos = 0 :=
  ⟨(claim_C8 exReg [⟨"RU", 1⟩] (by decide)).1,
   (claim_C8 exReg [⟨"RU", 1⟩] (by decide)).2.2⟩

/-- C9: the cache invariant — every stored value is a non-empty list of at
most 5 guesses sorted non-increasingly by probability — holds of the initial
empty cache and is preserved by both handlers; consequently the callback
handler's falsiness test fires exactly when the key is absent: under the
invariant, `send_graph`'s trace is the lone stale/missing notice iff the
extracted key is absent from the cache. -/
theorem claim_C9 :
    CacheWF emptyCache ∧
    (∀ (reg : Registry) (c : Cache) (chatId : Int) (text : String) (api : ApiOutcome),
        CacheWF c → CacheWF (handle_name reg c chatId text api).snd) ∧
    (∀ (reg : Registry) (c : Cache) (chatId : Int) (d : String) (r : Option String),
        CacheWF c → CacheWF (send_graph reg c chatId d r).snd) ∧
    (∀ (reg : Registry) (c : Cache) (chatId : Int) (d : String) (r : Option String),
        CacheWF c →
        ((send_graph reg c chatId d r).fst = [BotAction.answerCallback staleMsg] ↔
          c (extractKey d) = none)) := by
  refine ⟨fun k v h => Option.noConfusion h, ?_, ?_, ?_⟩
  · intro reg c chatId text api hwf
    simp only [handle_name]
    split
    · exact hwf
    · split
      · exact hwf
      · exact hwf
      · split
        · exact hwf
        · rename_i cf hcs
          intro k v hv
          dsimp only at hv
          unfold cachePut at hv
          split at hv
          · injection hv with hv2
            subst hv2
            exact ⟨topCountries_ne_nil hcs, topCountries_length_le _, topCountries_sorted _⟩
          · exact hwf k v hv
  · intro reg c chatId d r hwf
    simp only [send_graph]
    split
    · exact hwf
    · split
      · exact hwf
      · split
        · exact cacheWF_cacheDel hwf _
        · exact cacheWF_cacheDel hwf _
  · intro reg c chatId d r hwf
    cases hc : c (extractKey d) with
    | none =>
      constructor
      · intro _
        rfl
      · intro _
        simp [send_graph, hc]
    | some v =>
      have hv := hwf _ v hc
      constructor
      · intro hfst
        exfalso
        simp only [send_graph, hc] at hfst
        rw [if_neg hv.1] at hfst
        cases r with
        | some e =>
          simp at hfst
          exact renderErrMsg_ne_staleMsg e hfst
        | none =>
          simp at hfst
      · intro hnone
        exact Option.noConfusion hnone

/-- C9 witness: the invariant after a concrete successful query on the empty
cache, and the stale-notice equivalence at a concrete absent key. -/
theorem claim_C9_witness :
    CacheWF (handle_name exReg emptyCache 0 "ab" (ApiOutcome.ok (some exCountries))).snd ∧
    ((send_graph exReg emptyCache 0 "graph_zz" none).fst =
        [BotAction.answerCallback staleMsg] ↔
      emptyCache (extractKey "graph_zz") = none) :=
  ⟨claim_C9.2.1 exReg emptyCache 0 "ab" (ApiOutcome.ok (some exCountries))
      (fun _ _ h => Option.noConfusion h),
   claim_C9.2.2.2 exReg emptyCache 0 "graph_zz" none
      (fun _ _ h => Option.noConfusion h)⟩
